import Mathlib

/-!
The `App` component of `front/src/App.js`.

A shallow embedding of the one function component of the repository: the
JavaScript values it can meet, the promise chain of its mount effect, what it
renders, and a step function for one mounted instance (mount, re-render,
arrival of the response).
-/

namespace GenesisApp

/-! ## Values -/

/-- A JavaScript value as the component can meet one: the results of
`JSON.parse` (null, booleans, numbers, strings, arrays, objects), `undefined`,
and error objects (rejection reasons, thrown errors). A number is kept as the
text `String(n)` gives for it; an object as its own properties in insertion
order (each key once); an error object as its `name` and `message`. -/
inductive JsVal where
  | undefined : JsVal
  | null : JsVal
  | bool (b : Bool) : JsVal
  | num (text : String) : JsVal
  | str (s : String) : JsVal
  | arr (items : List JsVal) : JsVal
  | obj (fields : List (String × JsVal)) : JsVal
  | error (name message : String) : JsVal

/-- The settlement of a promise: `Except.ok v` is fulfilled with `v`,
`Except.error e` is rejected with reason `e`. The same type is the outcome of
evaluating an expression that may throw. -/
abbrev Settled (α : Type) := Except JsVal α

/-- The `TypeError` thrown on reading a property of `null` or `undefined`
(the message text is the engine's). -/
def nullishAccessError : JsVal :=
  JsVal.error "TypeError" "Cannot read properties of null or undefined"

/-- The expression `data.message` (line 12). Reading a property of `null` or
`undefined` throws; a boolean, number, string or array has no property
`message` on itself or its prototype, so the read gives `undefined`; an object
gives its own property `message`, or `undefined` without one; an error object
gives its message text. -/
def dotMessage (data : JsVal) : Settled JsVal :=
  match data with
  | JsVal.undefined => Except.error nullishAccessError
  | JsVal.null => Except.error nullishAccessError
  | JsVal.bool _ => Except.ok JsVal.undefined
  | JsVal.num _ => Except.ok JsVal.undefined
  | JsVal.str _ => Except.ok JsVal.undefined
  | JsVal.arr _ => Except.ok JsVal.undefined
  | JsVal.obj fields => Except.ok ((fields.lookup "message").getD JsVal.undefined)
  | JsVal.error _ m => Except.ok (JsVal.str m)

/-! ## Configuration -/

/-- The table `process.env`: the value of a variable, `none` when the variable
is not set (reading it gives `undefined`). -/
abbrev ProcessEnv := String → Option String

/-- The expression `a || b` for `a` a string or `undefined` and `b` a string:
`a` when `a` is truthy, `b` otherwise. `undefined` and the empty string are
the falsy values of that type. -/
def orElse (a : Option String) (b : String) : String :=
  match a with
  | none => b
  | some s => if s = "" then b else s

/-- Line 9: `process.env.REACT_APP_BACKEND_URL || 'http://localhost:8000'`. -/
def backendUrl (env : ProcessEnv) : String :=
  orElse (env "REACT_APP_BACKEND_URL") "http://localhost:8000"

/-! ## The request -/

/-- A `Response` as far as the component can observe one: its HTTP status and
what its `json()` method settles with (the parsed body, or the rejection
reason for a body that is not JSON). -/
structure Response where
  status : Nat
  json : Settled JsVal

/-- The getter `response.ok`: a status in the range 200-299. -/
def Response.ok (r : Response) : Bool := decide (200 ≤ r.status) && decide (r.status ≤ 299)

/-- How the promise returned by `fetch` settles: rejected (the backend could
not be reached) or fulfilled with a response. -/
inductive FetchOutcome where
  | rejected (reason : JsVal) : FetchOutcome
  | resolved (response : Response) : FetchOutcome

/-- The settlement of the promise `fetch(backendUrl)`. -/
def FetchOutcome.settle : FetchOutcome → Settled Response
  | FetchOutcome.rejected e => Except.error e
  | FetchOutcome.resolved r => Except.ok r

/-! ## Rendering -/

/-- A rendered tree: text, or an element with its tag, `className` and
children. Adjacent text children are kept as one text. -/
inductive Markup where
  | text (s : String) : Markup
  | element (tag : String) (className : Option String) (children : List Markup) : Markup

mutual
/-- The text React renders for the child `{v}`: a string as it is, a number as
its text, nothing for `undefined`, `null` and booleans, the children of an
array in order; an object is not a valid child and rendering throws. -/
def childText : JsVal → Settled String
  | JsVal.undefined => Except.ok ""
  | JsVal.null => Except.ok ""
  | JsVal.bool _ => Except.ok ""
  | JsVal.num t => Except.ok t
  | JsVal.str s => Except.ok s
  | JsVal.arr items => childrenText items
  | JsVal.obj _ => Except.error (JsVal.error "Error" "Objects are not valid as a React child")
  | JsVal.error _ _ => Except.error (JsVal.error "Error" "Objects are not valid as a React child")
/-- The texts of a list of children, one after the other. -/
def childrenText : List JsVal → Settled String
  | [] => Except.ok ""
  | v :: vs =>
    match childText v with
    | Except.error e => Except.error e
    | Except.ok a =>
      match childrenText vs with
      | Except.error e => Except.error e
      | Except.ok b => Except.ok (a ++ b)
end

/-- The text of the paragraph of lines 19-21 for the state `message`. -/
def paragraphText (message : JsVal) : Settled String :=
  match childText message with
  | Except.error e => Except.error e
  | Except.ok t => Except.ok ("Message from backend: " ++ t)

/-- The static markup of lines 17-23 around a paragraph text. -/
def appMarkup (paragraph : String) : Markup :=
  Markup.element "div" (some "App")
    [Markup.element "header" (some "App-header")
      [Markup.element "p" none [Markup.text paragraph]]]

/-- The `return` of lines 16-24: the tree for the state `message`, or the
error thrown while rendering it. -/
def render (message : JsVal) : Settled Markup :=
  match paragraphText message with
  | Except.error e => Except.error e
  | Except.ok t => Except.ok (appMarkup t)

/-! ## One mounted instance -/

/-- One mounted instance of `App` with everything it did so far: the cell of
`useState` (line 5), the arguments of every call of `fetch`, `setMessage` and
`console.error` in order, whether the promise of `fetch` is still pending,
whether a state update waits for its re-render, how often the function
component was called, and what its last call returned. -/
structure AppInstance where
  message : JsVal
  fetchCalls : List String
  setMessageCalls : List JsVal
  consoleErrors : List (List JsVal)
  pending : Bool
  renderScheduled : Bool
  renders : Nat
  view : Settled Markup

/-- The hooks of a first render, before the body of `App` has run:
`useState('')` creates the cell with the empty string. Nothing was called or
returned yet; `view` holds a placeholder until the first call returns. -/
def AppInstance.fresh : AppInstance where
  message := JsVal.str ""
  fetchCalls := []
  setMessageCalls := []
  consoleErrors := []
  pending := false
  renderScheduled := false
  renders := 0
  view := Except.error JsVal.undefined

/-- The call `fetch(url)` (line 10): the request goes out, its promise is
pending. -/
def fetch (url : String) (c : AppInstance) : AppInstance :=
  { c with fetchCalls := c.fetchCalls ++ [url], pending := true }

/-- The call `setMessage(v)` (line 12): the cell takes `v` and React schedules
a re-render. (React skips the re-render when `v` is the value the cell already
holds; the tree would be the same one.) -/
def setMessage (v : JsVal) (c : AppInstance) : AppInstance :=
  { c with message := v, setMessageCalls := c.setMessageCalls ++ [v], renderScheduled := true }

/-- The call `console.error(...args)` (line 13). -/
def consoleError (args : List JsVal) (c : AppInstance) : AppInstance :=
  { c with consoleErrors := c.consoleErrors ++ [args] }

/-- The method `p.then(onFulfilled)`: a fulfilled `p` runs the handler, whose
outcome (returned value or adopted promise, or the error it throws) settles
the new promise; a rejected `p` passes its reason on. -/
def promiseThen {α β : Type} (p : Settled α × AppInstance)
    (onFulfilled : α → AppInstance → Settled β × AppInstance) : Settled β × AppInstance :=
  match p.1 with
  | Except.ok v => onFulfilled v p.2
  | Except.error e => (Except.error e, p.2)

/-- The method `p.catch(onRejected)`: a rejected `p` runs the handler with the
reason; a fulfilled `p` passes its value on. -/
def promiseCatch {α : Type} (p : Settled α × AppInstance)
    (onRejected : JsVal → AppInstance → Settled α × AppInstance) : Settled α × AppInstance :=
  match p.1 with
  | Except.ok v => (Except.ok v, p.2)
  | Except.error e => onRejected e p.2

/-- The promise chain of lines 10-13, run once the promise of `fetch` has
settled as `o`:
`.then(response => response.json())`,
`.then(data => setMessage(data.message))`,
`.catch(error => console.error('Error fetching data:', error))`. -/
def chain (o : FetchOutcome) (c : AppInstance) : Settled JsVal × AppInstance :=
  promiseCatch
    (promiseThen
      (promiseThen (o.settle, c) (fun response c1 => (response.json, c1)))
      (fun data c2 =>
        match dotMessage data with
        | Except.error e => (Except.error e, c2)
        | Except.ok v => (Except.ok JsVal.undefined, setMessage v c2)))
    (fun error c3 =>
      (Except.ok JsVal.undefined, consoleError [JsVal.str "Error fetching data:", error] c3))

/-- The effect of lines 7-14, as React runs it after the first render. -/
def effect (env : ProcessEnv) (c : AppInstance) : AppInstance :=
  fetch (backendUrl env) c

/-- One call of the function component `App` by React. `prev` is the instance
with its hooks, `none` on the first render. `useState('')` gives the cell of
the instance (created as `''` on the first render); `useEffect(..., [])` has
the empty dependency list, so React runs the effect after the first render
and after no later one, no dependency being there to change; the returned
tree is that of the current `message`. -/
def App (env : ProcessEnv) (prev : Option AppInstance) : AppInstance :=
  let c := match prev with
    | none => AppInstance.fresh
    | some c0 => c0
  let c := { c with renders := c.renders + 1, view := render c.message, renderScheduled := false }
  match prev with
  | none => effect env c
  | some _ => c

/-- React re-renders an instance whose state was set. -/
def flush (env : ProcessEnv) (c : AppInstance) : AppInstance :=
  if c.renderScheduled then App env (some c) else c

/-- What can happen to the component: it is mounted, it is rendered again (by
its parent or the runtime), the promise of `fetch` settles. -/
inductive Event where
  | mount : Event
  | rerender : Event
  | arrive (o : FetchOutcome) : Event

/-- The state of the page: `none` before the component is mounted. -/
abbrev State := Option AppInstance

/-- One step. Mounting is the first render and its effect; a promise settles
once, while it is pending, and the handlers of the chain then run, followed by
the re-render a state update asks for. A step that cannot happen (a second
mount of the one instance, an event before the mount, a second settlement)
gives `none`. -/
def step (env : ProcessEnv) (s : State) (e : Event) : Option State :=
  match s, e with
  | none, Event.mount => some (some (App env none))
  | some c, Event.rerender => some (some (App env (some c)))
  | some c, Event.arrive o =>
    if c.pending then some (some (flush env (chain o { c with pending := false }).2)) else none
  | _, _ => none

/-- The state after a sequence of events from the unmounted page, `none` when
the sequence cannot happen. -/
def run (env : ProcessEnv) (t : List Event) : Option State :=
  t.foldlM (step env) none

/-- What the chain of lines 10-13 comes to for the outcome `o` of the request:
`Except.ok v` when the second handler is reached and calls `setMessage(v)`,
`Except.error e` when the `catch` handler runs with `e`. It is `chain` without
the instance, see `chain_snd`. -/
def verdict (o : FetchOutcome) : Settled JsVal :=
  match o with
  | FetchOutcome.rejected e => Except.error e
  | FetchOutcome.resolved r =>
    match r.json with
    | Except.error e => Except.error e
    | Except.ok data => dotMessage data

/-- The arguments of the one call of `console.error` for the error `e`. -/
def diagnostic (e : JsVal) : List JsVal := [JsVal.str "Error fetching data:", e]

/-- The environment in which `REACT_APP_BACKEND_URL` has the value `v` (`none`:
it is not set) and no other variable is set. -/
def envOf (v : Option String) : ProcessEnv :=
  fun k => if k = "REACT_APP_BACKEND_URL" then v else none

/-- The parsed body `\x7b"message": "hello"\x7d`. -/
def helloBody : JsVal := JsVal.obj [("message", JsVal.str "hello")]

/-- The instance right after the mount and the settlement `o` of its request. -/
def afterArrival (env : ProcessEnv) (o : FetchOutcome) : AppInstance :=
  flush env (chain o { App env none with pending := false }).2

/-- What every state of a mounted instance reached by the events `t` satisfies:
one request went out, to the backend URL; the view is that of the current
state; and either the promise is pending, no settlement is among the events and
nothing was set or logged, or exactly one settlement `o` is among the events
and the instance holds what the chain did for it. -/
structure Reached (env : ProcessEnv) (t : List Event) (c : AppInstance) : Prop where
  fetchCalls : c.fetchCalls = [backendUrl env]
  view : c.view = render c.message
  renders : 1 ≤ c.renders
  scheduled : c.renderScheduled = false
  outcome :
    (c.pending = true ∧ (∀ o, Event.arrive o ∉ t) ∧ c.message = JsVal.str "" ∧
      c.setMessageCalls = [] ∧ c.consoleErrors = []) ∨
    (c.pending = false ∧ ∃ o, Event.arrive o ∈ t ∧ (∀ o2, Event.arrive o2 ∈ t → o2 = o) ∧
      ((∃ v, verdict o = Except.ok v ∧ c.message = v ∧ c.setMessageCalls = [v] ∧
          c.consoleErrors = []) ∨
       (∃ e, verdict o = Except.error e ∧ c.message = JsVal.str "" ∧ c.setMessageCalls = [] ∧
          c.consoleErrors = [diagnostic e])))

end GenesisApp

namespace GenesisApp

/-! ## The chain and the reachable states -/

theorem chain_snd (o : FetchOutcome) (c : AppInstance) :
    (chain o c).2 =
      match verdict o with
      | Except.ok v => setMessage v c
      | Except.error e => consoleError (diagnostic e) c := by
  cases o with
  | rejected e => rfl
  | resolved r =>
    obtain ⟨st, j⟩ := r
    cases j with
    | error e => rfl
    | ok data =>
      simp only [chain, promiseThen, promiseCatch, FetchOutcome.settle, verdict]
      cases h : dotMessage data <;> simp [diagnostic]

theorem run_snoc (env : ProcessEnv) (t : List Event) (e : Event) :
    run env (t ++ [e]) = (run env t).bind (fun s => step env s e) := by
  simp [run, List.foldlM_append]

theorem step_ne_unmounted (env : ProcessEnv) (s : State) (e : Event) :
    step env s e ≠ some none := by
  cases s <;> cases e <;> simp [step]

theorem run_unmounted (env : ProcessEnv) (t : List Event) (h : run env t = some none) :
    t = [] := by
  induction t using List.reverseRecOn with
  | nil => rfl
  | append_singleton t e _ =>
    rw [run_snoc] at h
    cases hr : run env t with
    | none => simp [hr] at h
    | some s => simp [hr] at h; exact absurd h (step_ne_unmounted env s e)

end GenesisApp

namespace GenesisApp

theorem reached_mount (env : ProcessEnv) : Reached env [Event.mount] (App env none) := by
  refine ⟨rfl, rfl, ?_, rfl, Or.inl ⟨rfl, ?_, rfl, rfl, rfl⟩⟩
  · simp [App, effect, fetch, AppInstance.fresh]
  · intro o h
    simp at h

theorem reached_rerender (env : ProcessEnv) (t : List Event) (c : AppInstance)
    (h : Reached env t c) : Reached env (t ++ [Event.rerender]) (App env (some c)) := by
  obtain ⟨h1, h2, h3, h4, h5⟩ := h
  refine ⟨h1, rfl, ?_, rfl, ?_⟩
  · simp [App]
  · simpa [App] using h5

theorem reached_arrive (env : ProcessEnv) (t : List Event) (c : AppInstance) (o : FetchOutcome)
    (h : Reached env t c) (hp : c.pending = true) :
    Reached env (t ++ [Event.arrive o]) (flush env (chain o { c with pending := false }).2) := by
  obtain ⟨h1, h2, h3, h4, h5⟩ := h
  rcases h5 with ⟨_, hno, hm, hs, he⟩ | ⟨hq, _⟩
  · have huniq : ∀ o2, Event.arrive o2 ∈ t ++ [Event.arrive o] → o2 = o := by
      intro o2 hmem
      rcases List.mem_append.mp hmem with hmem | hmem
      · exact absurd hmem (hno o2)
      · simpa using hmem
    rw [chain_snd]
    cases hv : verdict o with
    | ok v =>
      refine ⟨?_, ?_, ?_, ?_, Or.inr ⟨?_, o, by simp, huniq, Or.inl ⟨v, hv, ?_, ?_, ?_⟩⟩⟩ <;>
        simp [flush, setMessage, App, h1, hs, he]
    | error e =>
      refine ⟨?_, ?_, ?_, ?_, Or.inr ⟨?_, o, by simp, huniq, Or.inr ⟨e, hv, ?_, ?_, ?_⟩⟩⟩ <;>
        simp [flush, consoleError, App, h1, h2, h3, h4, hm, hs, he]
  · rw [hq] at hp
    cases hp

/-- Every state of the mounted instance that a sequence of events reaches
satisfies `Reached`. -/
theorem reached (env : ProcessEnv) (t : List Event) (c : AppInstance)
    (h : run env t = some (some c)) : Reached env t c := by
  induction t using List.reverseRecOn generalizing c with
  | nil => simp [run] at h
  | append_singleton t e ih =>
    rw [run_snoc] at h
    cases hr : run env t with
    | none => simp [hr] at h
    | some s =>
      simp only [hr, Option.some_bind] at h
      cases s with
      | none =>
        have ht := run_unmounted env t hr
        subst ht
        cases e with
        | mount =>
          simp only [step, Option.some.injEq] at h
          subst h
          exact reached_mount env
        | rerender => simp [step] at h
        | arrive o => simp [step] at h
      | some c0 =>
        have h0 := ih c0 hr
        cases e with
        | mount => simp [step] at h
        | rerender =>
          simp only [step, Option.some.injEq] at h
          subst h
          exact reached_rerender env t c0 h0
        | arrive o =>
          by_cases hp : c0.pending = true
          · simp only [step, hp, if_true, Option.some.injEq] at h
            subst h
            exact reached_arrive env t c0 o h0 hp
          · simp [step, hp] at h

end GenesisApp

namespace GenesisApp

theorem reached_waiting (env : ProcessEnv) (t : List Event) (c : AppInstance)
    (h : run env t = some (some c)) (hno : ∀ o, Event.arrive o ∉ t) :
    c.message = JsVal.str "" ∧ c.setMessageCalls = [] ∧ c.consoleErrors = [] := by
  rcases (reached env t c h).outcome with ⟨_, _, hm, hs, he⟩ | ⟨_, o, ho, _⟩
  · exact ⟨hm, hs, he⟩
  · exact absurd ho (hno o)

theorem reached_arrived (env : ProcessEnv) (t : List Event) (c : AppInstance) (o : FetchOutcome)
    (h : run env t = some (some c)) (ho : Event.arrive o ∈ t) :
    (∃ v, verdict o = Except.ok v ∧ c.message = v ∧ c.setMessageCalls = [v] ∧
        c.consoleErrors = []) ∨
    (∃ e, verdict o = Except.error e ∧ c.message = JsVal.str "" ∧ c.setMessageCalls = [] ∧
        c.consoleErrors = [diagnostic e]) := by
  rcases (reached env t c h).outcome with ⟨_, hno, _⟩ | ⟨_, o2, _, huniq, hv⟩
  · exact absurd ho (hno o)
  · rw [huniq o ho]
    exact hv

theorem reached_set (env : ProcessEnv) (t : List Event) (c : AppInstance) (o : FetchOutcome)
    (v : JsVal) (h : run env t = some (some c)) (ho : Event.arrive o ∈ t)
    (hv : verdict o = Except.ok v) :
    c.message = v ∧ c.setMessageCalls = [v] ∧ c.consoleErrors = [] := by
  rcases reached_arrived env t c o h ho with ⟨v2, h2, hm, hs, he⟩ | ⟨e, h2, _⟩
  · rw [hv] at h2
    cases h2
    exact ⟨hm, hs, he⟩
  · rw [hv] at h2
    cases h2

theorem reached_logged (env : ProcessEnv) (t : List Event) (c : AppInstance) (o : FetchOutcome)
    (e : JsVal) (h : run env t = some (some c)) (ho : Event.arrive o ∈ t)
    (hv : verdict o = Except.error e) :
    c.message = JsVal.str "" ∧ c.setMessageCalls = [] ∧
      c.consoleErrors = [[JsVal.str "Error fetching data:", e]] := by
  rcases reached_arrived env t c o h ho with ⟨v, h2, _⟩ | ⟨e2, h2, hm, hs, he⟩
  · rw [hv] at h2
    cases h2
  · rw [hv] at h2
    cases h2
    exact ⟨hm, hs, he⟩

theorem verdict_ok_iff (o : FetchOutcome) (v : JsVal) :
    verdict o = Except.ok v ↔
      ∃ r data, o = FetchOutcome.resolved r ∧ r.json = Except.ok data ∧
        dotMessage data = Except.ok v := by
  constructor
  · intro h
    cases o with
    | rejected e => simp [verdict] at h
    | resolved r =>
      cases hj : r.json with
      | error e => simp [verdict, hj] at h
      | ok data => exact ⟨r, data, rfl, hj, by simpa [verdict, hj] using h⟩
  · rintro ⟨r, data, rfl, hj, hd⟩
    simp [verdict, hj, hd]

theorem render_str (m : String) :
    render (JsVal.str m) = Except.ok (appMarkup ("Message from backend: " ++ m)) := by
  simp [render, paragraphText, childText]

theorem render_undefined :
    render JsVal.undefined = Except.ok (appMarkup "Message from backend: ") := by
  simp [render, paragraphText, childText]

theorem run_mount (env : ProcessEnv) : run env [Event.mount] = some (some (App env none)) := rfl

theorem run_mount_arrive (env : ProcessEnv) (o : FetchOutcome) :
    run env [Event.mount, Event.arrive o] = some (some (afterArrival env o)) := rfl

end GenesisApp

namespace GenesisApp

/-! ## The request target -/

/-- C1, as stated, fails: with `REACT_APP_BACKEND_URL` present and equal to the
empty string, the URL passed to `fetch` by the mount effect is not that value
but `http://localhost:8000`. -/
theorem C1_present_empty_counterexample :
    envOf (some "") "REACT_APP_BACKEND_URL" = some "" ∧
    run (envOf (some "")) [Event.mount] = some (some (App (envOf (some "")) none)) ∧
    (App (envOf (some "")) none).fetchCalls = ["http://localhost:8000"] ∧
    (App (envOf (some "")) none).fetchCalls ≠ [""] := by
  refine ⟨by simp [envOf], rfl, ?_, ?_⟩ <;>
    simp [App, effect, fetch, backendUrl, orElse, envOf, AppInstance.fresh]

/-- C1 (amended): in every state of the mounted instance the URL passed to
`fetch` is the value of `REACT_APP_BACKEND_URL` when that variable is present
and not the empty string, and the literal `http://localhost:8000` when it is
absent or the empty string. -/
theorem C1_request_target (env : ProcessEnv) (t : List Event) (c : AppInstance)
    (h : run env t = some (some c)) :
    (∀ v, env "REACT_APP_BACKEND_URL" = some v → v ≠ "" → c.fetchCalls = [v]) ∧
    (env "REACT_APP_BACKEND_URL" = none ∨ env "REACT_APP_BACKEND_URL" = some "" →
      c.fetchCalls = ["http://localhost:8000"]) := by
  have hf := (reached env t c h).fetchCalls
  refine ⟨fun v hv hne => ?_, fun hv => ?_⟩
  · simp [hf, backendUrl, orElse, hv, hne]
  · rcases hv with hv | hv <;> simp [hf, backendUrl, orElse, hv]

theorem C1_request_target_witness :
    run (envOf (some "https://api.example.org")) [Event.mount] =
      some (some (App (envOf (some "https://api.example.org")) none)) ∧
    envOf (some "https://api.example.org") "REACT_APP_BACKEND_URL" =
      some "https://api.example.org" ∧
    "https://api.example.org" ≠ "" ∧
    (App (envOf (some "https://api.example.org")) none).fetchCalls =
      ["https://api.example.org"] :=
  ⟨rfl, by simp [envOf], by decide,
    (C1_request_target (envOf (some "https://api.example.org")) [Event.mount] _ rfl).1
      "https://api.example.org" (by simp [envOf]) (by decide)⟩

/-- C8: when `REACT_APP_BACKEND_URL` is present but the empty string, the URL
passed to `fetch` in every state of the mounted instance is the fallback
`http://localhost:8000` and not the configured empty value: `||` falls back on
a falsy left operand, the empty string as much as `undefined`. -/
theorem C8_empty_value_falls_back (env : ProcessEnv) (t : List Event) (c : AppInstance)
    (hv : env "REACT_APP_BACKEND_URL" = some "") (h : run env t = some (some c)) :
    c.fetchCalls = ["http://localhost:8000"] ∧ c.fetchCalls ≠ [""] ∧
    backendUrl env = orElse none "http://localhost:8000" := by
  have hf := (reached env t c h).fetchCalls
  simp [hf, backendUrl, orElse, hv]

theorem C8_empty_value_falls_back_witness :
    envOf (some "") "REACT_APP_BACKEND_URL" = some "" ∧
    run (envOf (some "")) [Event.mount, Event.rerender] =
      some (some (App (envOf (some "")) (some (App (envOf (some "")) none)))) ∧
    (App (envOf (some "")) (some (App (envOf (some "")) none))).fetchCalls =
      ["http://localhost:8000"] :=
  ⟨by simp [envOf], rfl,
    (C8_empty_value_falls_back (envOf (some "")) [Event.mount, Event.rerender] _
      (by simp [envOf]) rfl).1⟩

end GenesisApp

namespace GenesisApp

/-! ## The outcomes of the request -/

/-- C2: for every string `m`, when the request resolved (with any status) and
the body parsed to an object whose `message` field is `m`, then in every state
after the settlement the message state is `m`, `setMessage` was called once
with `m`, nothing was logged, and the rendered tree is the `div` of class
`App` holding the `header` of class `App-header` holding the paragraph whose
text is exactly `Message from backend: ` followed by `m` unchanged. -/
theorem C2_message_displayed (env : ProcessEnv) (t : List Event) (c : AppInstance)
    (status : Nat) (fields : List (String × JsVal)) (m : String)
    (h : run env t = some (some c))
    (ho : Event.arrive (FetchOutcome.resolved ⟨status, Except.ok (JsVal.obj fields)⟩) ∈ t)
    (hm : fields.lookup "message" = some (JsVal.str m)) :
    c.message = JsVal.str m ∧
    c.view = Except.ok
      (Markup.element "div" (some "App")
        [Markup.element "header" (some "App-header")
          [Markup.element "p" none [Markup.text ("Message from backend: " ++ m)]]]) ∧
    paragraphText c.message = Except.ok ("Message from backend: " ++ m) ∧
    c.setMessageCalls = [JsVal.str m] ∧ c.consoleErrors = [] := by
  have hv : verdict (FetchOutcome.resolved ⟨status, Except.ok (JsVal.obj fields)⟩) =
      Except.ok (JsVal.str m) := by
    simp [verdict, dotMessage, hm]
  obtain ⟨h1, h2, h3⟩ := reached_set env t c _ _ h ho hv
  refine ⟨h1, ?_, ?_, h2, h3⟩
  · rw [(reached env t c h).view, h1]
    simp [render, paragraphText, childText, appMarkup]
  · simp [h1, paragraphText, childText]

theorem C2_message_displayed_witness :
    run (envOf none) [Event.mount, Event.arrive (FetchOutcome.resolved ⟨200, Except.ok helloBody⟩)] =
      some (some (afterArrival (envOf none) (FetchOutcome.resolved ⟨200, Except.ok helloBody⟩))) ∧
    (afterArrival (envOf none) (FetchOutcome.resolved ⟨200, Except.ok helloBody⟩)).message =
      JsVal.str "hello" ∧
    (afterArrival (envOf none) (FetchOutcome.resolved ⟨200, Except.ok helloBody⟩)).view =
      Except.ok
        (Markup.element "div" (some "App")
          [Markup.element "header" (some "App-header")
            [Markup.element "p" none [Markup.text ("Message from backend: " ++ "hello")]]]) :=
  have w := C2_message_displayed (envOf none)
    [Event.mount, Event.arrive (FetchOutcome.resolved ⟨200, Except.ok helloBody⟩)]
    (afterArrival (envOf none) (FetchOutcome.resolved ⟨200, Except.ok helloBody⟩))
    200 [("message", JsVal.str "hello")] "hello" rfl (by simp [helloBody]) (by simp [List.lookup])
  ⟨rfl, w.1, w.2.1⟩

/-- C3: when the promise of `fetch` was rejected with `reason`, then in every
state after that `setMessage` was never called, the message state is the
initial `''`, the view is the one of the initial render (the paragraph without
message text), and `console.error` was called exactly once, with
`'Error fetching data:'` and `reason`. -/
theorem C3_fetch_rejected (env : ProcessEnv) (t : List Event) (c : AppInstance) (reason : JsVal)
    (h : run env t = some (some c))
    (ho : Event.arrive (FetchOutcome.rejected reason) ∈ t) :
    c.setMessageCalls = [] ∧ c.message = JsVal.str "" ∧
    c.view = (App env none).view ∧
    c.view = Except.ok (appMarkup "Message from backend: ") ∧
    c.consoleErrors = [[JsVal.str "Error fetching data:", reason]] := by
  obtain ⟨h1, h2, h3⟩ := reached_logged env t c _ reason h ho rfl
  have hview : c.view = Except.ok (appMarkup "Message from backend: ") := by
    rw [(reached env t c h).view, h1, render_str]
    rfl
  refine ⟨h2, h1, ?_, hview, h3⟩
  rw [hview]
  exact (render_str "").symm

theorem C3_fetch_rejected_witness :
    run (envOf none)
        [Event.mount, Event.arrive (FetchOutcome.rejected (JsVal.error "TypeError" "Failed to fetch"))] =
      some (some (afterArrival (envOf none)
        (FetchOutcome.rejected (JsVal.error "TypeError" "Failed to fetch")))) ∧
    (afterArrival (envOf none)
        (FetchOutcome.rejected (JsVal.error "TypeError" "Failed to fetch"))).consoleErrors =
      [[JsVal.str "Error fetching data:", JsVal.error "TypeError" "Failed to fetch"]] :=
  ⟨rfl, (C3_fetch_rejected (envOf none)
    [Event.mount, Event.arrive (FetchOutcome.rejected (JsVal.error "TypeError" "Failed to fetch"))]
    _ (JsVal.error "TypeError" "Failed to fetch") rfl (by simp)).2.2.2.2⟩

/-- C4: when the request resolved but `response.json()` was rejected with the
parse error `e` (the body is not JSON), then in every state after that the
message state is still `''`, the view is the one of the initial render,
`setMessage` was not called, and `console.error` was called exactly once, with
`'Error fetching data:'` and `e`. -/
theorem C4_malformed_body (env : ProcessEnv) (t : List Event) (c : AppInstance)
    (status : Nat) (e : JsVal)
    (h : run env t = some (some c))
    (ho : Event.arrive (FetchOutcome.resolved ⟨status, Except.error e⟩) ∈ t) :
    c.message = JsVal.str "" ∧ c.setMessageCalls = [] ∧
    c.view = (App env none).view ∧
    c.consoleErrors = [[JsVal.str "Error fetching data:", e]] := by
  obtain ⟨h1, h2, h3⟩ := reached_logged env t c _ e h ho rfl
  refine ⟨h1, h2, ?_, h3⟩
  rw [(reached env t c h).view, h1]
  rfl

theorem C4_malformed_body_witness :
    run (envOf none)
        [Event.mount, Event.arrive (FetchOutcome.resolved
          ⟨200, Except.error (JsVal.error "SyntaxError" "Unexpected token")⟩)] =
      some (some (afterArrival (envOf none) (FetchOutcome.resolved
          ⟨200, Except.error (JsVal.error "SyntaxError" "Unexpected token")⟩))) ∧
    (afterArrival (envOf none) (FetchOutcome.resolved
          ⟨200, Except.error (JsVal.error "SyntaxError" "Unexpected token")⟩)).consoleErrors =
      [[JsVal.str "Error fetching data:", JsVal.error "SyntaxError" "Unexpected token"]] :=
  ⟨rfl, (C4_malformed_body (envOf none)
    [Event.mount, Event.arrive (FetchOutcome.resolved
      ⟨200, Except.error (JsVal.error "SyntaxError" "Unexpected token")⟩)]
    _ 200 (JsVal.error "SyntaxError" "Unexpected token") rfl (by simp)).2.2.2⟩

end GenesisApp

namespace GenesisApp

/-! ## Invariants of the mounted instance -/

/-- C5: in every state of the mounted instance that mount, re-render and
settlement steps reach, exactly one call of `fetch` was issued, and a further
call of the component function (a re-render) leaves the calls as they are. -/
theorem C5_one_request (env : ProcessEnv) (t : List Event) (c : AppInstance)
    (h : run env t = some (some c)) :
    c.fetchCalls.length = 1 ∧ (App env (some c)).fetchCalls = c.fetchCalls := by
  refine ⟨?_, rfl⟩
  rw [(reached env t c h).fetchCalls]
  rfl

theorem C5_one_request_witness :
    run (envOf none)
        [Event.mount, Event.rerender,
          Event.arrive (FetchOutcome.resolved ⟨200, Except.ok helloBody⟩), Event.rerender] =
      some (some (App (envOf none) (some (flush (envOf none)
        (chain (FetchOutcome.resolved ⟨200, Except.ok helloBody⟩)
          { App (envOf none) (some (App (envOf none) none)) with pending := false }).2)))) ∧
    (App (envOf none) (some (flush (envOf none)
        (chain (FetchOutcome.resolved ⟨200, Except.ok helloBody⟩)
          { App (envOf none) (some (App (envOf none) none))
              with pending := false }).2))).fetchCalls.length = 1 :=
  ⟨rfl, (C5_one_request (envOf none)
    [Event.mount, Event.rerender,
      Event.arrive (FetchOutcome.resolved ⟨200, Except.ok helloBody⟩), Event.rerender] _ rfl).1⟩

/-- C6, as stated, fails: for the body `\x7b\x7d` (an object without fields) the
success handler stores `undefined`, which is neither the initial `''` nor a
value of the response (whose only value is the empty object, and which has no
`message` field). -/
theorem C6_undefined_stored_counterexample :
    run (envOf none)
        [Event.mount, Event.arrive (FetchOutcome.resolved ⟨200, Except.ok (JsVal.obj [])⟩)] =
      some (some (afterArrival (envOf none)
        (FetchOutcome.resolved ⟨200, Except.ok (JsVal.obj [])⟩))) ∧
    (afterArrival (envOf none)
        (FetchOutcome.resolved ⟨200, Except.ok (JsVal.obj [])⟩)).message = JsVal.undefined ∧
    (afterArrival (envOf none)
        (FetchOutcome.resolved ⟨200, Except.ok (JsVal.obj [])⟩)).message ≠ JsVal.str "" ∧
    (afterArrival (envOf none)
        (FetchOutcome.resolved ⟨200, Except.ok (JsVal.obj [])⟩)).message ≠ JsVal.obj [] ∧
    ([] : List (String × JsVal)).lookup "message" = none := by
  have hm : (afterArrival (envOf none)
      (FetchOutcome.resolved ⟨200, Except.ok (JsVal.obj [])⟩)).message = JsVal.undefined := rfl
  refine ⟨rfl, hm, ?_, ?_, rfl⟩ <;>
    · rw [hm]
      intro hc
      cases hc

/-- C6 (amended): in every state of the mounted instance, whatever the
response, the message state is either the initial `''`, or the request
resolved with a response whose body parsed to `data` and the state is what
`data.message` gives: the value of the own field `message` when `data` is an
object that has one, `undefined` when `data` is an object without that field
or a boolean, number, string or array (and the message text for an error
object, which no parsed body is). No other value is stored. -/
theorem C6_message_invariant (env : ProcessEnv) (t : List Event) (c : AppInstance)
    (h : run env t = some (some c)) :
    c.message = JsVal.str "" ∨
    ∃ r data, Event.arrive (FetchOutcome.resolved r) ∈ t ∧ r.json = Except.ok data ∧
      ((∃ fields v, data = JsVal.obj fields ∧ fields.lookup "message" = some v ∧
          c.message = v) ∨
       (∃ fields, data = JsVal.obj fields ∧ fields.lookup "message" = none ∧
          c.message = JsVal.undefined) ∨
       (((∃ b, data = JsVal.bool b) ∨ (∃ x, data = JsVal.num x) ∨ (∃ s, data = JsVal.str s) ∨
          (∃ items, data = JsVal.arr items)) ∧ c.message = JsVal.undefined) ∨
       (∃ n m, data = JsVal.error n m ∧ c.message = JsVal.str m)) := by
  rcases (reached env t c h).outcome with ⟨_, _, hm, _⟩ | ⟨_, o, ho, _, hv⟩
  · exact Or.inl hm
  · rcases hv with ⟨v, hv, hm, _⟩ | ⟨e, _, hm, _⟩
    · obtain ⟨r, data, rfl, hj, hd⟩ := (verdict_ok_iff o v).mp hv
      refine Or.inr ⟨r, data, ho, hj, ?_⟩
      cases data with
      | undefined => simp [dotMessage] at hd
      | null => simp [dotMessage] at hd
      | bool b =>
        simp only [dotMessage, Except.ok.injEq] at hd
        exact Or.inr (Or.inr (Or.inl ⟨Or.inl ⟨b, rfl⟩, by rw [hm, hd]⟩))
      | num x =>
        simp only [dotMessage, Except.ok.injEq] at hd
        exact Or.inr (Or.inr (Or.inl ⟨Or.inr (Or.inl ⟨x, rfl⟩), by rw [hm, hd]⟩))
      | str s =>
        simp only [dotMessage, Except.ok.injEq] at hd
        exact Or.inr (Or.inr (Or.inl ⟨Or.inr (Or.inr (Or.inl ⟨s, rfl⟩)), by rw [hm, hd]⟩))
      | arr items =>
        simp only [dotMessage, Except.ok.injEq] at hd
        exact Or.inr (Or.inr (Or.inl ⟨Or.inr (Or.inr (Or.inr ⟨items, rfl⟩)), by rw [hm, hd]⟩))
      | obj fields =>
        simp only [dotMessage, Except.ok.injEq] at hd
        cases hl : fields.lookup "message" with
        | none =>
          rw [hl] at hd
          exact Or.inr (Or.inl ⟨fields, rfl, hl, by rw [hm, ← hd]; rfl⟩)
        | some w =>
          rw [hl] at hd
          exact Or.inl ⟨fields, w, rfl, hl, by rw [hm, ← hd]; rfl⟩
      | error n m =>
        simp only [dotMessage, Except.ok.injEq] at hd
        exact Or.inr (Or.inr (Or.inr ⟨n, m, rfl, by rw [hm, hd]⟩))
    · exact Or.inl hm

theorem C6_message_invariant_witness :
    run (envOf none) [Event.mount, Event.arrive (FetchOutcome.resolved ⟨200, Except.ok helloBody⟩)] =
      some (some (afterArrival (envOf none) (FetchOutcome.resolved ⟨200, Except.ok helloBody⟩))) ∧
    ((afterArrival (envOf none) (FetchOutcome.resolved ⟨200, Except.ok helloBody⟩)).message =
        JsVal.str "" ∨
      ∃ r data, Event.arrive (FetchOutcome.resolved r) ∈
          [Event.mount, Event.arrive (FetchOutcome.resolved ⟨200, Except.ok helloBody⟩)] ∧
        r.json = Except.ok data ∧
        ((∃ fields v, data = JsVal.obj fields ∧ fields.lookup "message" = some v ∧
            (afterArrival (envOf none)
              (FetchOutcome.resolved ⟨200, Except.ok helloBody⟩)).message = v) ∨
         (∃ fields, data = JsVal.obj fields ∧ fields.lookup "message" = none ∧
            (afterArrival (envOf none)
              (FetchOutcome.resolved ⟨200, Except.ok helloBody⟩)).message = JsVal.undefined) ∨
         (((∃ b, data = JsVal.bool b) ∨ (∃ x, data = JsVal.num x) ∨ (∃ s, data = JsVal.str s) ∨
            (∃ items, data = JsVal.arr items)) ∧
            (afterArrival (envOf none)
              (FetchOutcome.resolved ⟨200, Except.ok helloBody⟩)).message = JsVal.undefined) ∨
         (∃ n m, data = JsVal.error n m ∧
            (afterArrival (envOf none)
              (FetchOutcome.resolved ⟨200, Except.ok helloBody⟩)).message = JsVal.str m))) :=
  ⟨rfl, C6_message_invariant (envOf none)
    [Event.mount, Event.arrive (FetchOutcome.resolved ⟨200, Except.ok helloBody⟩)] _ rfl⟩

/-- C7: the message state is created as `''` by the first render, and in every
state of the mounted instance `setMessage` was called at most once: exactly
once when the request settled with a response whose body parsed and whose
field access did not throw, and not at all when it settled otherwise or has not
settled. -/
theorem C7_set_at_most_once (env : ProcessEnv) (t : List Event) (c : AppInstance)
    (h : run env t = some (some c)) :
    (App env none).message = JsVal.str "" ∧ (App env none).setMessageCalls = [] ∧
    c.setMessageCalls.length ≤ 1 ∧
    (∀ o, Event.arrive o ∈ t →
      ((∃ r data v, o = FetchOutcome.resolved r ∧ r.json = Except.ok data ∧
          dotMessage data = Except.ok v) → c.setMessageCalls.length = 1) ∧
      ((¬ ∃ r data v, o = FetchOutcome.resolved r ∧ r.json = Except.ok data ∧
          dotMessage data = Except.ok v) → c.setMessageCalls.length = 0)) ∧
    ((∀ o, Event.arrive o ∉ t) → c.setMessageCalls.length = 0) := by
  refine ⟨rfl, rfl, ?_, ?_, ?_⟩
  · rcases (reached env t c h).outcome with ⟨_, _, _, hs, _⟩ | ⟨_, o, _, _, hv⟩
    · simp [hs]
    · rcases hv with ⟨v, _, _, hs, _⟩ | ⟨e, _, _, hs, _⟩ <;> simp [hs]
  · intro o ho
    rcases reached_arrived env t c o h ho with ⟨v, hv, _, hs, _⟩ | ⟨e, hv, _, hs, _⟩
    · refine ⟨fun _ => by simp [hs], fun hn => ?_⟩
      obtain ⟨r, data, h1, h2, h3⟩ := (verdict_ok_iff o v).mp hv
      exact absurd ⟨r, data, v, h1, h2, h3⟩ hn
    · refine ⟨fun hex => ?_, fun _ => by simp [hs]⟩
      obtain ⟨r, data, v, h1, h2, h3⟩ := hex
      have hv2 := (verdict_ok_iff o v).mpr ⟨r, data, h1, h2, h3⟩
      rw [hv] at hv2
      cases hv2
  · intro hno
    simp [(reached_waiting env t c h hno).2.1]

theorem C7_set_at_most_once_witness :
    run (envOf none) [Event.mount, Event.arrive (FetchOutcome.resolved ⟨200, Except.ok helloBody⟩)] =
      some (some (afterArrival (envOf none) (FetchOutcome.resolved ⟨200, Except.ok helloBody⟩))) ∧
    (afterArrival (envOf none)
      (FetchOutcome.resolved ⟨200, Except.ok helloBody⟩)).setMessageCalls.length ≤ 1 :=
  ⟨rfl, (C7_set_at_most_once (envOf none)
    [Event.mount, Event.arrive (FetchOutcome.resolved ⟨200, Except.ok helloBody⟩)] _ rfl).2.2.1⟩

end GenesisApp

namespace GenesisApp

/-! ## Bodies without a message, and the status -/

/-- C9: when the body parsed to an object without a `message` field, the
success handler ran: `setMessage` was called with `undefined`, the message
state is `undefined` (no longer `''`, and no text value), nothing was logged,
and the paragraph shows no message text. When the body parsed to `null`, the
field access threw, the `catch` handler logged the error, `setMessage` was not
called and the state is still `''`. -/
theorem C9_missing_field_and_null (env : ProcessEnv) (t : List Event) (c : AppInstance)
    (status : Nat) (h : run env t = some (some c)) :
    (∀ fields : List (String × JsVal),
      Event.arrive (FetchOutcome.resolved ⟨status, Except.ok (JsVal.obj fields)⟩) ∈ t →
      fields.lookup "message" = none →
      c.setMessageCalls = [JsVal.undefined] ∧ c.message = JsVal.undefined ∧
      c.message ≠ JsVal.str "" ∧ (∀ s, c.message ≠ JsVal.str s) ∧
      c.consoleErrors = [] ∧
      c.view = Except.ok (appMarkup "Message from backend: ")) ∧
    (Event.arrive (FetchOutcome.resolved ⟨status, Except.ok JsVal.null⟩) ∈ t →
      dotMessage JsVal.null = Except.error nullishAccessError ∧
      c.consoleErrors = [[JsVal.str "Error fetching data:", nullishAccessError]] ∧
      c.setMessageCalls = [] ∧ c.message = JsVal.str "") := by
  constructor
  · intro fields ho hm
    have hv : verdict (FetchOutcome.resolved ⟨status, Except.ok (JsVal.obj fields)⟩) =
        Except.ok JsVal.undefined := by
      simp [verdict, dotMessage, hm]
    obtain ⟨h1, h2, h3⟩ := reached_set env t c _ _ h ho hv
    refine ⟨h2, h1, ?_, ?_, h3, ?_⟩
    · rw [h1]
      intro hc
      cases hc
    · intro s
      rw [h1]
      intro hc
      cases hc
    · rw [(reached env t c h).view, h1, render_undefined]
  · intro ho
    obtain ⟨h1, h2, h3⟩ := reached_logged env t c _ nullishAccessError h ho rfl
    exact ⟨rfl, h3, h2, h1⟩

theorem C9_missing_field_and_null_witness :
    (run (envOf none)
        [Event.mount, Event.arrive (FetchOutcome.resolved ⟨200, Except.ok (JsVal.obj [])⟩)] =
      some (some (afterArrival (envOf none)
        (FetchOutcome.resolved ⟨200, Except.ok (JsVal.obj [])⟩))) ∧
     (afterArrival (envOf none)
        (FetchOutcome.resolved ⟨200, Except.ok (JsVal.obj [])⟩)).setMessageCalls =
      [JsVal.undefined]) ∧
    (run (envOf none)
        [Event.mount, Event.arrive (FetchOutcome.resolved ⟨200, Except.ok JsVal.null⟩)] =
      some (some (afterArrival (envOf none)
        (FetchOutcome.resolved ⟨200, Except.ok JsVal.null⟩))) ∧
     (afterArrival (envOf none)
        (FetchOutcome.resolved ⟨200, Except.ok JsVal.null⟩)).consoleErrors =
      [[JsVal.str "Error fetching data:", nullishAccessError]]) :=
  ⟨⟨rfl, ((C9_missing_field_and_null (envOf none)
      [Event.mount, Event.arrive (FetchOutcome.resolved ⟨200, Except.ok (JsVal.obj [])⟩)]
      _ 200 rfl).1 [] (by simp) rfl).1⟩,
   ⟨rfl, ((C9_missing_field_and_null (envOf none)
      [Event.mount, Event.arrive (FetchOutcome.resolved ⟨200, Except.ok JsVal.null⟩)]
      _ 200 rfl).2 (by simp)).2.1⟩⟩

/-- C10: the outcome does not depend on the HTTP status. For two runs whose
requests resolved with responses of the same `json()` outcome and any two
status codes, the message state, the calls of `setMessage` and the diagnostics
logged are the same; the chain itself gives the same result for both
responses. -/
theorem C10_status_ignored (env : ProcessEnv) (t1 t2 : List Event) (c1 c2 : AppInstance)
    (s1 s2 : Nat) (j : Settled JsVal)
    (h1 : run env t1 = some (some c1)) (h2 : run env t2 = some (some c2))
    (ho1 : Event.arrive (FetchOutcome.resolved ⟨s1, j⟩) ∈ t1)
    (ho2 : Event.arrive (FetchOutcome.resolved ⟨s2, j⟩) ∈ t2) :
    c1.message = c2.message ∧ c1.consoleErrors = c2.consoleErrors ∧
    c1.setMessageCalls = c2.setMessageCalls ∧
    (∀ c, chain (FetchOutcome.resolved ⟨s1, j⟩) c = chain (FetchOutcome.resolved ⟨s2, j⟩) c) := by
  have hv : verdict (FetchOutcome.resolved ⟨s1, j⟩) = verdict (FetchOutcome.resolved ⟨s2, j⟩) := rfl
  refine ⟨?_, ?_, ?_, fun c => rfl⟩ <;>
    rcases reached_arrived env t1 c1 _ h1 ho1 with ⟨v, hv1, hm1, hs1, he1⟩ | ⟨e, hv1, hm1, hs1, he1⟩ <;>
    rcases reached_arrived env t2 c2 _ h2 ho2 with ⟨w, hv2, hm2, hs2, he2⟩ | ⟨f, hv2, hm2, hs2, he2⟩ <;>
    rw [hv, hv2] at hv1 <;> cases hv1 <;> simp [hm1, hm2, hs1, hs2, he1, he2]

theorem C10_status_ignored_witness :
    run (envOf none) [Event.mount, Event.arrive (FetchOutcome.resolved ⟨200, Except.ok helloBody⟩)] =
      some (some (afterArrival (envOf none) (FetchOutcome.resolved ⟨200, Except.ok helloBody⟩))) ∧
    run (envOf none) [Event.mount, Event.arrive (FetchOutcome.resolved ⟨500, Except.ok helloBody⟩)] =
      some (some (afterArrival (envOf none) (FetchOutcome.resolved ⟨500, Except.ok helloBody⟩))) ∧
    (afterArrival (envOf none) (FetchOutcome.resolved ⟨200, Except.ok helloBody⟩)).message =
      (afterArrival (envOf none) (FetchOutcome.resolved ⟨500, Except.ok helloBody⟩)).message ∧
    (afterArrival (envOf none) (FetchOutcome.resolved ⟨200, Except.ok helloBody⟩)).consoleErrors =
      (afterArrival (envOf none) (FetchOutcome.resolved ⟨500, Except.ok helloBody⟩)).consoleErrors ∧
    Response.ok ⟨500, Except.ok helloBody⟩ = false ∧
    (afterArrival (envOf none) (FetchOutcome.resolved ⟨500, Except.ok helloBody⟩)).message =
      JsVal.str "hello" :=
  have w := C10_status_ignored (envOf none)
    [Event.mount, Event.arrive (FetchOutcome.resolved ⟨200, Except.ok helloBody⟩)]
    [Event.mount, Event.arrive (FetchOutcome.resolved ⟨500, Except.ok helloBody⟩)]
    _ _ 200 500 (Except.ok helloBody) rfl rfl (by simp) (by simp)
  ⟨rfl, rfl, w.1, w.2.1, by decide, rfl⟩

end GenesisApp
